import Mathlib

/-!
Verification of the rust-c64 Commodore 64 emulator against its specification.

The Rust sources are shallowly embedded: machine bytes and words are `Nat`
values reduced modulo 2^8 / 2^16 exactly where the source performs wrapping
arithmetic or integer casts; Rust `panic!` is modelled by `Option` (`none`
means the source panics); Rust `match` over integer literals is embedded as
the equivalent chain of equality tests.

Embedded components:
  * `StatusRegister`  from src/cpu/status_register.rs
  * `Sid`             from src/io/sid.rs
  * `Cia`             from src/io/cia.rs
  * `Vic`             from src/io/vic.rs (register file and address pins)
  * `Cpu`             from src/cpu/mod.rs (micro-coded state machine)
  * `Bus`             from src/bus.rs (address decode, read/write routing)
-/

namespace C64

/-- Byte-sized memory: address to stored byte. -/
def Mem : Type := Nat → Nat

/-- Store `v` at address `a` (`ram[addr] = value`). -/
def memWrite (m : Mem) (a v : Nat) : Mem := fun x => if x = a then v else m x

@[simp] theorem memWrite_same (m : Mem) (a v : Nat) : memWrite m a v a = v := by
  simp [memWrite]

theorem memWrite_other (m : Mem) (a v x : Nat) (h : x ≠ a) :
    memWrite m a v x = m x := by
  simp [memWrite, h]

/-! ## StatusRegister (src/cpu/status_register.rs) -/

/-- The eight CPU condition flags, as in `struct StatusRegister`. -/
structure StatusRegister where
  negative : Bool
  overflow : Bool
  expansion : Bool
  break_cmd : Bool
  decimal : Bool
  int_disable : Bool
  zero_result : Bool
  carry : Bool
  deriving DecidableEq

namespace StatusRegister

/-- `StatusRegister::new`: all flags clear. -/
def new : StatusRegister :=
  { negative := false, overflow := false, expansion := false, break_cmd := false
    decimal := false, int_disable := false, zero_result := false, carry := false }

/-- `StatusRegister::from_u8`: load every flag from one bit of `value`
(NV-BDIZC order).  The method overwrites all of `self`, so the prior
register contents are irrelevant. -/
def from_u8 (_s : StatusRegister) (value : Nat) : StatusRegister :=
  { negative := decide (value &&& 128 = 128)
    overflow := decide (value &&& 64 = 64)
    expansion := decide (value &&& 32 = 32)
    break_cmd := decide (value &&& 16 = 16)
    decimal := decide (value &&& 8 = 8)
    int_disable := decide (value &&& 4 = 4)
    zero_result := decide (value &&& 2 = 2)
    carry := decide (value &&& 1 = 1) }

/-- `StatusRegister::to_u8`: pack the flags back into one byte. -/
def to_u8 (s : StatusRegister) : Nat :=
  (if s.negative then 128 else 0) +
  (if s.overflow then 64 else 0) +
  (if s.expansion then 32 else 0) +
  (if s.break_cmd then 16 else 0) +
  (if s.decimal then 8 else 0) +
  (if s.int_disable then 4 else 0) +
  (if s.zero_result then 2 else 0) +
  (if s.carry then 1 else 0)

/-- `StatusRegister::compare`: `diff = a.wrapping_sub(b)` on bytes, then set
N from `diff > 0x80`, Z from equality, C from `a >= b`. -/
def compare (s : StatusRegister) (a b : Nat) : StatusRegister :=
  let diff := (a + 256 - b) % 256
  let s1 : StatusRegister := { s with negative := decide (diff > 128), zero_result := false }
  if a < b then { s1 with carry := false }
  else if a = b then { s1 with carry := true, zero_result := true }
  else { s1 with carry := true }

/-- `StatusRegister::determine_zero`. -/
def determine_zero (s : StatusRegister) (value : Nat) : StatusRegister :=
  { s with zero_result := decide (value = 0) }

/-- `StatusRegister::determine_negative`. -/
def determine_negative (s : StatusRegister) (value : Nat) : StatusRegister :=
  { s with negative := decide (value &&& 0x80 = 0x80) }

/-- `StatusRegister::determine_carry`. -/
def determine_carry (s : StatusRegister) (value : Nat) : StatusRegister :=
  { s with carry := decide (value &&& 0x80 = 0x80) }

end StatusRegister

/-! ## SID register file (src/io/sid.rs) -/

namespace sid

def MIN_CONTROL_ADDR : Nat := 0xd400
def MAX_CONTROL_ADDR : Nat := 0xd7ff
def CONTROL_REG_COUNT : Nat := 0x20

end sid

/-- `write_low_byte` from src/io/mod.rs. -/
def write_low_byte (word byte : Nat) : Nat := (word &&& 0xf0) + byte

/-- `write_high_byte` from src/io/mod.rs. -/
def write_high_byte (word byte : Nat) : Nat := ((byte <<< 8) + (word >>> 8)) % 65536

/-- The SID register state, as in `struct Sid`. -/
structure Sid where
  v1_f : Nat
  v1_pw : Nat
  v1_ctl : Nat
  v1_ad : Nat
  v1_sr : Nat
  v2_f : Nat
  v2_pw : Nat
  v2_ctl : Nat
  v2_ad : Nat
  v2_sr : Nat
  v3_f : Nat
  v3_pw : Nat
  v3_ctl : Nat
  v3_ad : Nat
  v3_sr : Nat
  filter_co : Nat
  filter_ctl : Nat
  vol_mode : Nat
  paddle_x : Nat
  paddle_y : Nat
  v3_wave : Nat
  v3_adsr : Nat
  deriving DecidableEq

namespace Sid

/-- `Sid::new`: all registers zero. -/
def new : Sid :=
  { v1_f := 0, v1_pw := 0, v1_ctl := 0, v1_ad := 0, v1_sr := 0
    v2_f := 0, v2_pw := 0, v2_ctl := 0, v2_ad := 0, v2_sr := 0
    v3_f := 0, v3_pw := 0, v3_ctl := 0, v3_ad := 0, v3_sr := 0
    filter_co := 0, filter_ctl := 0, vol_mode := 0
    paddle_x := 0, paddle_y := 0, v3_wave := 0, v3_adsr := 0 }

/-- `Sid::translate_addr`; `none` models the panic on an out-of-window
address. -/
def translate_addr (s : Sid) (addr : Nat) : Option Nat :=
  if addr > sid.MAX_CONTROL_ADDR ∨ addr < sid.MIN_CONTROL_ADDR then
    none
  else if h : addr - sid.MIN_CONTROL_ADDR > sid.CONTROL_REG_COUNT then
    s.translate_addr (addr - sid.CONTROL_REG_COUNT)
  else
    some (addr - sid.MIN_CONTROL_ADDR)
termination_by addr
decreasing_by
  simp [sid.CONTROL_REG_COUNT, sid.MIN_CONTROL_ADDR] at h ⊢
  omega

/-- `Sid::read_register`: only registers 0x19..0x1c are readable, everything
else reads as zero. -/
def read_register (s : Sid) (addr : Nat) : Option Nat :=
  (s.translate_addr addr).map fun reg =>
    if reg = 0x19 then s.paddle_x
    else if reg = 0x1a then s.paddle_y
    else if reg = 0x1b then s.v3_wave
    else if reg = 0x1c then s.v3_adsr
    else 0

/-- `Sid::write_register`. -/
def write_register (s : Sid) (addr value : Nat) : Option Sid :=
  (s.translate_addr addr).map fun reg =>
    if reg = 0 then { s with v1_f := write_low_byte s.v1_f value }
    else if reg = 1 then { s with v1_f := write_high_byte s.v1_f value }
    else if reg = 2 then { s with v1_pw := write_low_byte s.v1_pw value }
    else if reg = 3 then { s with v1_pw := write_high_byte s.v1_pw value }
    else if reg = 4 then { s with v1_ctl := value }
    else if reg = 5 then { s with v1_ad := value }
    else if reg = 6 then { s with v1_sr := value }
    else if reg = 7 then { s with v2_f := write_low_byte s.v2_f value }
    else if reg = 8 then { s with v2_f := write_high_byte s.v2_f value }
    else if reg = 9 then { s with v2_pw := write_low_byte s.v2_pw value }
    else if reg = 10 then { s with v2_pw := write_high_byte s.v2_pw value }
    else if reg = 11 then { s with v2_ctl := value }
    else if reg = 12 then { s with v2_ad := value }
    else if reg = 13 then { s with v2_sr := value }
    else if reg = 14 then { s with v3_f := write_low_byte s.v3_f value }
    else if reg = 15 then { s with v3_f := write_high_byte s.v3_f value }
    else if reg = 16 then { s with v3_pw := write_low_byte s.v3_pw value }
    else if reg = 17 then { s with v3_pw := write_high_byte s.v3_pw value }
    else if reg = 18 then { s with v3_ctl := value }
    else if reg = 19 then { s with v3_ad := value }
    else if reg = 20 then { s with v3_sr := value }
    else if reg = 21 then { s with filter_co := (s.filter_co &&& 0xf8) &&& (value &&& 7) }
    else if reg = 22 then { s with filter_co := (s.filter_co &&& 0x07) &&& ((value <<< 3) % 65536) }
    else if reg = 23 then { s with filter_ctl := value }
    else if reg = 24 then { s with vol_mode := value }
    else s

end Sid

/-! ## CIA register file (src/io/cia.rs) -/

namespace cia

def CONTROL_REG_COUNT : Nat := 0x10

end cia

/-- The CIA register state, as in `struct Cia`. -/
structure Cia where
  port_a : Nat
  port_b : Nat
  port_a_dir : Nat
  port_b_dir : Nat
  timer_a : Nat
  timer_b : Nat
  tod_ds : Nat
  tod_s : Nat
  tod_m : Nat
  tod_h : Nat
  serial_shift : Nat
  int_enable : Nat
  int_status : Nat
  timer_a_ctl : Nat
  timer_b_ctl : Nat
  base_addr : Nat
  deriving DecidableEq

namespace Cia

/-- `Cia::new`. -/
def new (base : Nat) : Cia :=
  { port_a := 0, port_b := 0, port_a_dir := 0, port_b_dir := 0
    timer_a := 0, timer_b := 0
    tod_ds := 0, tod_s := 0, tod_m := 0, tod_h := 0
    serial_shift := 0, int_enable := 0, int_status := 0
    timer_a_ctl := 0, timer_b_ctl := 0
    base_addr := base }

/-- `Cia::translate_addr`; `none` models the panic.  Note the guard rejects
every address at or beyond `base_addr + 0x10` before the mirroring
recursion can run. -/
def translate_addr (c : Cia) (addr : Nat) : Option Nat :=
  if addr ≥ c.base_addr + cia.CONTROL_REG_COUNT ∨ addr < c.base_addr then
    none
  else if h : addr - c.base_addr > cia.CONTROL_REG_COUNT then
    c.translate_addr (addr - cia.CONTROL_REG_COUNT)
  else
    some (addr - c.base_addr)
termination_by addr
decreasing_by
  simp [cia.CONTROL_REG_COUNT] at h ⊢
  omega

/-- `Cia::read_register`. -/
def read_register (c : Cia) (addr : Nat) : Option Nat :=
  (c.translate_addr addr).map fun reg =>
    if reg = 0 then c.port_a
    else if reg = 1 then c.port_b
    else if reg = 2 then c.port_a_dir
    else if reg = 3 then c.port_b_dir
    else if reg = 4 then c.timer_a &&& 0x0f
    else if reg = 5 then c.timer_a >>> 8
    else if reg = 6 then c.timer_b &&& 0x0f
    else if reg = 7 then c.timer_b >>> 8
    else if reg = 8 then c.tod_ds
    else if reg = 9 then c.tod_s
    else if reg = 10 then c.tod_m
    else if reg = 11 then c.tod_h
    else if reg = 12 then c.serial_shift
    else if reg = 13 then c.int_status
    else if reg = 14 then c.timer_a_ctl
    else if reg = 15 then c.timer_b_ctl
    else 0

/-- `Cia::write_register`. -/
def write_register (c : Cia) (addr value : Nat) : Option Cia :=
  (c.translate_addr addr).map fun reg =>
    if reg = 0 then { c with port_a := value }
    else if reg = 1 then { c with port_b := value }
    else if reg = 2 then { c with port_a_dir := value }
    else if reg = 3 then { c with port_b_dir := value }
    else if reg = 4 then { c with timer_a := write_low_byte c.timer_a value }
    else if reg = 5 then { c with timer_a := write_high_byte c.timer_a value }
    else if reg = 6 then { c with timer_b := write_low_byte c.timer_b value }
    else if reg = 7 then { c with timer_b := write_high_byte c.timer_b value }
    else if reg = 8 then { c with tod_ds := value }
    else if reg = 9 then { c with tod_s := value }
    else if reg = 10 then { c with tod_m := value }
    else if reg = 11 then { c with tod_h := value }
    else if reg = 12 then { c with serial_shift := value }
    else if reg = 13 then { c with int_enable := value }
    else if reg = 14 then { c with timer_a_ctl := value }
    else if reg = 15 then { c with timer_b_ctl := value }
    else c

end Cia

/-! ## VIC-II register file (src/io/vic.rs) -/

namespace vic

def MIN_CONTROL_ADDR : Nat := 0xd000
def MAX_CONTROL_ADDR : Nat := 0xd3ff
def CONTROL_REG_COUNT : Nat := 0x40

end vic

/-- `enum VicState`. -/
inductive VicState where
  | Idle
  | MatrixRead
  deriving DecidableEq

/-- The VIC state, as in `struct Vic`: output pins, the 47 registers, and
the internal counters.  Only the register file and the address pins are
needed by the claims; the raster machinery is carried as plain data. -/
structure Vic where
  irq : Bool
  rdy : Bool
  aec : Bool
  sx0 : Nat
  sy0 : Nat
  sx1 : Nat
  sy1 : Nat
  sx2 : Nat
  sy2 : Nat
  sx3 : Nat
  sy3 : Nat
  sx4 : Nat
  sy4 : Nat
  sx5 : Nat
  sy5 : Nat
  sx6 : Nat
  sy6 : Nat
  sx7 : Nat
  sy7 : Nat
  msbx : Nat
  cr1 : Nat
  raster : Nat
  lpx : Nat
  lpy : Nat
  s_enable : Nat
  cr2 : Nat
  sye : Nat
  mem : Nat
  int : Nat
  int_enable : Nat
  s_priority : Nat
  s_multi : Nat
  sxe : Nat
  ss_coll : Nat
  sd_coll : Nat
  border : Nat
  bg0 : Nat
  bg1 : Nat
  bg2 : Nat
  bg3 : Nat
  sm0 : Nat
  sm1 : Nat
  s0c : Nat
  s1c : Nat
  s2c : Nat
  s3c : Nat
  s4c : Nat
  s5c : Nat
  s6c : Nat
  s7c : Nat
  state : VicState
  addr_bus : Nat
  data_bus : Nat
  matrix_pos : Nat
  xpos : Nat
  cycles : Nat
  raster_int : Nat
  deriving DecidableEq

namespace Vic

/-- `Vic::new`. -/
def new : Vic :=
  { irq := true, rdy := true, aec := true
    sx0 := 0, sy0 := 0, sx1 := 0, sy1 := 0, sx2 := 0, sy2 := 0
    sx3 := 0, sy3 := 0, sx4 := 0, sy4 := 0, sx5 := 0, sy5 := 0
    sx6 := 0, sy6 := 0, sx7 := 0, sy7 := 0
    msbx := 0, cr1 := 0x1b, raster := 0, lpx := 0, lpy := 0
    s_enable := 0, cr2 := 0xc8, sye := 0, mem := 0, int := 0
    int_enable := 0, s_priority := 0, s_multi := 0, sxe := 0
    ss_coll := 0, sd_coll := 0, border := 0
    bg0 := 0, bg1 := 0, bg2 := 0, bg3 := 0, sm0 := 0, sm1 := 0
    s0c := 0, s1c := 0, s2c := 0, s3c := 0, s4c := 0, s5c := 0
    s6c := 0, s7c := 0
    state := VicState.Idle
    addr_bus := 0x3fff, data_bus := 0, matrix_pos := 0
    xpos := 0, cycles := 0, raster_int := 0xff }

/-- `Vic::translate_addr`; `none` models the panic, and in-window addresses
mirror every 0x40 bytes. -/
def translate_addr (_v : Vic) (addr : Nat) : Option Nat :=
  if addr > vic.MAX_CONTROL_ADDR ∨ addr < vic.MIN_CONTROL_ADDR then
    none
  else
    some ((addr - vic.MIN_CONTROL_ADDR) % vic.CONTROL_REG_COUNT)

/-- `Vic::read_register`. -/
def read_register (v : Vic) (addr : Nat) : Option Nat :=
  (v.translate_addr addr).map fun reg =>
    if reg = 0 then v.sx0 else if reg = 1 then v.sy0
    else if reg = 2 then v.sx1 else if reg = 3 then v.sy1
    else if reg = 4 then v.sx2 else if reg = 5 then v.sy2
    else if reg = 6 then v.sx3 else if reg = 7 then v.sy3
    else if reg = 8 then v.sx4 else if reg = 9 then v.sy4
    else if reg = 10 then v.sx5 else if reg = 11 then v.sy5
    else if reg = 12 then v.sx6 else if reg = 13 then v.sy6
    else if reg = 14 then v.sx7 else if reg = 15 then v.sy7
    else if reg = 16 then v.msbx else if reg = 17 then v.cr1
    else if reg = 18 then v.raster else if reg = 19 then v.lpx
    else if reg = 20 then v.lpy else if reg = 21 then v.s_enable
    else if reg = 22 then v.cr2 else if reg = 23 then v.sye
    else if reg = 24 then v.mem else if reg = 25 then v.int
    else if reg = 26 then v.int_enable else if reg = 27 then v.s_priority
    else if reg = 28 then v.s_multi else if reg = 29 then v.sxe
    else if reg = 30 then v.ss_coll else if reg = 31 then v.sd_coll
    else if reg = 32 then v.border else if reg = 33 then v.bg0
    else if reg = 34 then v.bg1 else if reg = 35 then v.bg2
    else if reg = 36 then v.bg3 else if reg = 37 then v.sm0
    else if reg = 38 then v.sm1 else if reg = 39 then v.s0c
    else if reg = 40 then v.s1c else if reg = 41 then v.s2c
    else if reg = 42 then v.s3c else if reg = 43 then v.s4c
    else if reg = 44 then v.s5c else if reg = 45 then v.s6c
    else if reg = 46 then v.s7c
    else 0xff

/-- `Vic::write_register`. -/
def write_register (v : Vic) (addr value : Nat) : Option Vic :=
  (v.translate_addr addr).map fun reg =>
    if reg = 0 then { v with sx0 := value } else if reg = 1 then { v with sy0 := value }
    else if reg = 2 then { v with sx1 := value } else if reg = 3 then { v with sy1 := value }
    else if reg = 4 then { v with sx2 := value } else if reg = 5 then { v with sy2 := value }
    else if reg = 6 then { v with sx3 := value } else if reg = 7 then { v with sy3 := value }
    else if reg = 8 then { v with sx4 := value } else if reg = 9 then { v with sy4 := value }
    else if reg = 10 then { v with sx5 := value } else if reg = 11 then { v with sy5 := value }
    else if reg = 12 then { v with sx6 := value } else if reg = 13 then { v with sy6 := value }
    else if reg = 14 then { v with sx7 := value } else if reg = 15 then { v with sy7 := value }
    else if reg = 16 then { v with msbx := value }
    else if reg = 17 then { v with cr1 := value ||| 0xc0 }
    else if reg = 18 then { v with raster_int := value }
    else if reg = 19 then { v with lpx := value }
    else if reg = 20 then { v with lpy := value }
    else if reg = 21 then { v with s_enable := value }
    else if reg = 22 then { v with cr2 := value }
    else if reg = 23 then { v with sye := value }
    else if reg = 24 then { v with mem := value ||| 1 }
    else if reg = 25 then { v with int := value ||| 0x70 }
    else if reg = 26 then { v with int_enable := value ||| 0x70 }
    else if reg = 27 then { v with s_priority := value }
    else if reg = 28 then { v with s_multi := value }
    else if reg = 29 then { v with sxe := value }
    else if reg = 30 then { v with ss_coll := value }
    else if reg = 31 then { v with sd_coll := value }
    else if reg = 32 then { v with border := value ||| 0xf0 }
    else if reg = 33 then { v with bg0 := value ||| 0xf0 }
    else if reg = 34 then { v with bg1 := value ||| 0xf0 }
    else if reg = 35 then { v with bg2 := value ||| 0xf0 }
    else if reg = 36 then { v with bg3 := value ||| 0xf0 }
    else if reg = 37 then { v with sm0 := value ||| 0xf0 }
    else if reg = 38 then { v with sm1 := value ||| 0xf0 }
    else if reg = 39 then { v with s0c := value ||| 0xf0 }
    else if reg = 40 then { v with s1c := value ||| 0xf0 }
    else if reg = 41 then { v with s2c := value ||| 0xf0 }
    else if reg = 42 then { v with s3c := value ||| 0xf0 }
    else if reg = 43 then { v with s4c := value ||| 0xf0 }
    else if reg = 44 then { v with s5c := value ||| 0xf0 }
    else if reg = 45 then { v with s6c := value ||| 0xf0 }
    else if reg = 46 then { v with s7c := value ||| 0xf0 }
    else v

/-- `Vic::read_addr_bus`.  The comment in the source says "Only use the
lower 14 bits of the address", but the code masks with `0x40` — a single
bit — instead of `0x3fff`. -/
def read_addr_bus (v : Vic) : Nat :=
  v.addr_bus &&& 0x40

end Vic

/-! ## CPU micro-coded state machine (src/cpu/mod.rs) -/

def RESET_VECTOR_ADDR : Nat := 0xfce2
def STACK_START_ADDR : Nat := 0x0100
def IRQ_VEC_LO_ADDR : Nat := 0xfffe

/-- `enum CpuState`. -/
inductive CpuState where
  | Fetch
  | Load
  | Store
  | PushWordLo
  | PushWordHi
  | PullWordLo
  | PullWordHi
  | AddressLo
  | AddressLoX
  | AddressLoY
  | AddressHi
  | AddressHiX
  | AddressHiY
  | AddressZeropage
  | AddressZeropageX
  | AddressZeropageXAdd
  | AddressZeropageY
  | AddressZeropageYAdd
  | AddressIndirectIndexed
  | AddressIndirectIndexedLo
  | AddressIndirectIndexedHi
  | AddressIndirectIndexedPageCross
  | AddressIndexedIndirect
  | AddressIndexedIndirectAdd
  | AddressIndexedIndirectLo
  | AddressIndexedIndirectHi
  | Immediate
  | Implied
  | ToLoad
  | Halt
  deriving DecidableEq

/-- Opcode mnemonics.  Only the opcodes the claims exercise are carried
individually; every other mnemonic is collapsed into `OTHER` (its
`do_instr` arm is not modelled; no claim depends on it). -/
inductive Opcode where
  | JSR
  | RTS
  | RTI
  | BRK
  | KIL
  | OTHER
  deriving DecidableEq

/-- Modelled from the spec: `Opcode::from_u8` lives in the `opcode` module
declared by src/cpu/mod.rs, whose file is not among the sources; section
4.1.4 of the spec requires the standard 6502 encodings, which put JSR
(absolute) at 0x20, RTS at 0x60, RTI at 0x40, BRK at 0x00 and KIL at
0x02. -/
def Opcode.from_u8 (code : Nat) : Opcode :=
  if code = 0x20 then Opcode.JSR
  else if code = 0x60 then Opcode.RTS
  else if code = 0x40 then Opcode.RTI
  else if code = 0x00 then Opcode.BRK
  else if code = 0x02 then Opcode.KIL
  else Opcode.OTHER

/-- The CPU state, as in `struct Cpu`. -/
structure Cpu where
  pc : Nat
  a : Nat
  x : Nat
  y : Nat
  sr : StatusRegister
  sp : Nat
  dataport : Nat
  data_direction_reg : Nat
  cycles : Nat
  curr_op : Opcode
  addr_lo : Nat
  addr_hi : Nat
  data_bus : Nat
  rw : Bool
  addr_enable : Bool
  addr_bus : Nat
  stack_word_ready : Bool
  stack_word : Nat
  state : CpuState
  deriving DecidableEq

namespace Cpu

/-- `Cpu::new`. -/
def new : Cpu :=
  { pc := 0, a := 0, x := 0, y := 0, sr := StatusRegister.new, sp := 0
    dataport := 0, data_direction_reg := 0, cycles := 0
    curr_op := Opcode.KIL, addr_lo := 0, addr_hi := 0
    rw := true, addr_enable := false, addr_bus := 0, data_bus := 0
    stack_word_ready := false, stack_word := 0, state := CpuState.Halt }

/-- `Cpu::reset`. -/
def reset (c : Cpu) : Cpu :=
  { c with
    pc := RESET_VECTOR_ADDR, a := 0xaa, x := 0, y := 0, sp := 0xfd
    data_direction_reg := 0x2f, dataport := 0x37
    addr_bus := RESET_VECTOR_ADDR, addr_enable := true, rw := true
    state := CpuState.Fetch }

/-- `Cpu::set_addr_bus`. -/
def set_addr_bus (c : Cpu) (addr : Nat) : Cpu :=
  { c with addr_bus := addr, addr_enable := true, rw := true }

/-- `Cpu::read_data_bus`. -/
def read_data_bus (c : Cpu) : Nat := c.data_bus

/-- `Cpu::set_data_bus`. -/
def set_data_bus (c : Cpu) (value : Nat) : Cpu :=
  { c with data_bus := value, rw := false }

/-- `Cpu::data_in`: latch a byte supplied by the bus, only in read mode. -/
def data_in (c : Cpu) (value : Nat) : Cpu :=
  if c.rw then { c with data_bus := value } else c

/-- `Cpu::data_out`. -/
def data_out (c : Cpu) : Nat := c.data_bus

/-- `Cpu::write_ddr`. -/
def write_ddr (c : Cpu) (value : Nat) : Cpu :=
  { c with data_direction_reg := value }

/-- `Cpu::read_ddr`. -/
def read_ddr (c : Cpu) : Nat := c.data_direction_reg

/-- `Cpu::write_dataport`: the dataport is masked through the DDR. -/
def write_dataport (c : Cpu) (value : Nat) : Cpu :=
  { c with dataport := c.data_direction_reg &&& value }

/-- `Cpu::read_dataport`. -/
def read_dataport (c : Cpu) : Nat := c.dataport

/-- `Cpu::get_stack_addr`: `(sp as u16) + 0x0100`. -/
def get_stack_addr (c : Cpu) : Nat := c.sp + STACK_START_ADDR

/-- `Cpu::addr_from_hi_lo`: `((addr_hi as u16) << 8) + addr_lo`. -/
def addr_from_hi_lo (c : Cpu) : Nat := (c.addr_hi <<< 8) + c.addr_lo

/-- `Cpu::increment_pc`: consume one instruction-stream byte exactly in the
listed states. -/
def increment_pc (c : Cpu) : Cpu :=
  if c.state = CpuState.Fetch ∨ c.state = CpuState.AddressLo ∨
     c.state = CpuState.AddressLoX ∨ c.state = CpuState.AddressLoY ∨
     c.state = CpuState.AddressHi ∨ c.state = CpuState.AddressHiX ∨
     c.state = CpuState.AddressHiY ∨ c.state = CpuState.AddressZeropage ∨
     c.state = CpuState.AddressZeropageX ∨ c.state = CpuState.AddressZeropageY ∨
     c.state = CpuState.Immediate ∨ c.state = CpuState.Implied then
    let c := { c with pc := (c.pc + 1) % 65536 }
    c.set_addr_bus c.pc
  else
    c

/-- `Cpu::do_instr`, translated for the opcodes the claims exercise.  The
returned `CpuState` is the value `do_instr` hands back to `cycle`; `none`
models a panic — in particular the RTI arm of the source is literally
`RTI => { panic!(); }`. -/
def do_instr (c : Cpu) : Option (Cpu × CpuState) :=
  match c.curr_op with
  | Opcode.JSR =>
      let c := { c with stack_word := c.pc }
      let c := { c with pc := c.addr_from_hi_lo }
      some (c, CpuState.PushWordHi)
  | Opcode.RTS =>
      if c.stack_word_ready then
        some ({ c with pc := c.stack_word, stack_word_ready := false }, CpuState.ToLoad)
      else
        some (c, CpuState.PullWordLo)
  | Opcode.RTI => none
  | Opcode.BRK =>
      if c.state = CpuState.Implied then
        some ({ c with stack_word_ready := false, stack_word := (c.pc + 2) % 65536 },
              CpuState.PushWordHi)
      else if c.state = CpuState.ToLoad then
        if ¬ c.stack_word_ready then
          let c := { c with stack_word_ready := true }
          let sp := c.get_stack_addr
          let c := { c with sp := (c.sp + 255) % 256 }
          let c := c.set_addr_bus sp
          let c := c.set_data_bus (c.sr.to_u8 ||| 24)
          let c := { c with sr := { c.sr with int_disable := true } }
          some (c, CpuState.Store)
        else
          let c := { c with pc := IRQ_VEC_LO_ADDR }
          some (c.set_addr_bus IRQ_VEC_LO_ADDR, CpuState.AddressLo)
      else
        some ({ c with pc := c.addr_from_hi_lo }, CpuState.Fetch)
  | Opcode.KIL => some (c, CpuState.Halt)
  | Opcode.OTHER => none

/-- `Cpu::addressing_mode`: column/row decode of the opcode byte sitting on
the data bus; `none` models the panic on column 0xf. -/
def addressing_mode (c : Cpu) : Option CpuState :=
  let row := c.read_data_bus >>> 4
  let col := c.read_data_bus % 16
  if col = 0 then
    some (if row % 2 = 1 ∨ row > 7 then CpuState.Immediate
          else if row = 0 ∨ row = 4 ∨ row = 6 then CpuState.Implied
          else CpuState.AddressLo)
  else if col = 1 ∨ col = 3 then
    some (if row % 2 = 1 then CpuState.AddressIndirectIndexed
          else CpuState.AddressIndexedIndirect)
  else if col = 2 then
    some (if row = 8 ∨ row = 0xa ∨ row = 0xc ∨ row = 0xe then CpuState.Immediate
          else CpuState.Halt)
  else if col = 4 ∨ col = 5 then
    some (if row % 2 = 1 then CpuState.AddressZeropageX else CpuState.AddressZeropage)
  else if col = 6 then
    some (if row % 2 = 0 then CpuState.AddressZeropage
          else if row = 9 then CpuState.AddressZeropageY
          else CpuState.AddressZeropageX)
  else if col = 7 then
    some (if row % 2 = 0 then CpuState.AddressZeropage
          else if row = 9 ∨ row = 0xa then CpuState.AddressZeropageY
          else CpuState.AddressZeropageX)
  else if col = 8 ∨ col = 0xa then
    some CpuState.Implied
  else if col = 9 ∨ col = 0xb then
    some (if row % 2 = 0 then CpuState.Immediate else CpuState.AddressLoY)
  else if col = 0xc ∨ col = 0xd then
    some (if row % 2 = 1 then CpuState.AddressLoX else CpuState.AddressLo)
  else if col = 0xe then
    some (if row % 2 = 0 then CpuState.AddressLo
          else if row = 9 ∨ row = 0xa then CpuState.AddressLoY
          else CpuState.AddressLoX)
  else
    none

/-- `Cpu::cycle`: one bus transaction of the state machine.  `none` models
a panic (the Halt arm, RTI, or an unmodelled opcode arm). -/
def cycle (c : Cpu) : Option Cpu :=
  let c := c.increment_pc
  let next : Option Cpu :=
    match c.state with
    | CpuState.ToLoad =>
        if c.curr_op ≠ Opcode.BRK then
          some { c.set_addr_bus c.pc with state := CpuState.Fetch }
        else
          (c.do_instr).map fun p => { p.1 with state := p.2 }
    | CpuState.Fetch =>
        let c := { c with curr_op := Opcode.from_u8 c.read_data_bus }
        (c.addressing_mode).map fun st => { c with state := st }
    | CpuState.Implied =>
        (c.do_instr).bind fun p =>
          let c := { p.1 with state := p.2 }
          if c.state = CpuState.Fetch then
            let c := { c with curr_op := Opcode.from_u8 c.read_data_bus }
            (c.addressing_mode).map fun st => { c with state := st }
          else
            some c
    | CpuState.Immediate =>
        (c.do_instr).map fun p => { p.1 with state := p.2 }
    | CpuState.Load =>
        (c.do_instr).map fun p =>
          let c := { p.1 with state := p.2 }
          if c.state = CpuState.Fetch then c.set_addr_bus c.pc else c
    | CpuState.Store =>
        some { c with rw := false, state := CpuState.ToLoad }
    | CpuState.AddressZeropage | CpuState.AddressZeropageX | CpuState.AddressZeropageY =>
        let c := { c with addr_hi := 0, addr_lo := c.read_data_bus }
        let c := c.set_addr_bus c.addr_from_hi_lo
        if c.state = CpuState.AddressZeropageX then
          some { c with state := CpuState.AddressZeropageXAdd }
        else if c.state = CpuState.AddressZeropageY then
          some { c with state := CpuState.AddressZeropageYAdd }
        else
          some { c with state := CpuState.Load }
    | CpuState.AddressZeropageXAdd =>
        let c := { c with addr_lo := (c.addr_lo + c.x) % 256 }
        some { c.set_addr_bus c.addr_from_hi_lo with state := CpuState.Load }
    | CpuState.AddressZeropageYAdd =>
        let c := { c with addr_lo := (c.addr_lo + c.y) % 256 }
        some { c.set_addr_bus c.addr_from_hi_lo with state := CpuState.Load }
    | CpuState.AddressLo =>
        some { c with addr_lo := c.read_data_bus, state := CpuState.AddressHi }
    | CpuState.AddressLoX =>
        some { c with addr_lo := c.read_data_bus, state := CpuState.AddressHiX }
    | CpuState.AddressLoY =>
        some { c with addr_lo := c.read_data_bus, state := CpuState.AddressHiY }
    | CpuState.AddressHi =>
        let c := { c with addr_hi := c.read_data_bus }
        some { c.set_addr_bus c.addr_from_hi_lo with state := CpuState.Load }
    | CpuState.AddressHiX =>
        let c := { c with addr_hi := c.read_data_bus }
        some { c.set_addr_bus ((c.addr_from_hi_lo + c.x) % 65536) with state := CpuState.Load }
    | CpuState.AddressHiY =>
        let c := { c with addr_hi := c.read_data_bus }
        some { c.set_addr_bus ((c.addr_from_hi_lo + c.y) % 65536) with state := CpuState.Load }
    | CpuState.PushWordHi =>
        let c := c.set_addr_bus c.get_stack_addr
        let c := c.set_data_bus ((c.stack_word >>> 8) % 256)
        let c := { c with sp := (c.sp + 255) % 256 }
        some { c with state := CpuState.PushWordLo }
    | CpuState.AddressIndexedIndirect =>
        let c := { c with addr_hi := 0, addr_lo := c.read_data_bus }
        some { c.set_addr_bus c.addr_from_hi_lo with state := CpuState.AddressIndexedIndirectAdd }
    | CpuState.AddressIndexedIndirectAdd =>
        some { c.set_addr_bus ((c.addr_bus + c.x) % 65536) with
               state := CpuState.AddressIndexedIndirectLo }
    | CpuState.AddressIndexedIndirectLo =>
        let c := { c with addr_lo := c.read_data_bus }
        some { c.set_addr_bus ((c.addr_bus + 1) % 65536) with
               state := CpuState.AddressIndexedIndirectHi }
    | CpuState.AddressIndexedIndirectHi =>
        let c := { c with addr_hi := c.read_data_bus }
        some { c.set_addr_bus c.addr_from_hi_lo with state := CpuState.Load }
    | CpuState.AddressIndirectIndexed =>
        let c := { c with addr_hi := 0, addr_lo := c.read_data_bus }
        some { c.set_addr_bus c.addr_from_hi_lo with state := CpuState.AddressIndirectIndexedLo }
    | CpuState.AddressIndirectIndexedLo =>
        let c := { c with addr_lo := (c.addr_lo + 1) % 256 }
        let addrv := c.addr_from_hi_lo
        let c := { c with addr_lo := c.read_data_bus }
        some { c.set_addr_bus addrv with state := CpuState.AddressIndirectIndexedHi }
    | CpuState.AddressIndirectIndexedHi =>
        let c := { c with addr_hi := c.read_data_bus }
        let c := { c with addr_lo := (c.addr_lo + c.y) % 256 }
        let c := c.set_addr_bus c.addr_from_hi_lo
        if c.addr_lo + c.y > 0xff then
          some { c with state := CpuState.AddressIndirectIndexedPageCross }
        else
          some { c with state := CpuState.Load }
    | CpuState.AddressIndirectIndexedPageCross =>
        let c := { c with addr_hi := (c.addr_hi + 1) % 256 }
        some { c.set_addr_bus c.addr_from_hi_lo with state := CpuState.Load }
    | CpuState.PushWordLo =>
        let c := c.set_addr_bus c.get_stack_addr
        let c := c.set_data_bus (c.stack_word &&& 0xff)
        let c := { c with sp := (c.sp + 255) % 256 }
        some { c with state := CpuState.ToLoad }
    | CpuState.PullWordHi =>
        if c.stack_word_ready then
          some { c with
                 stack_word := (c.stack_word + (c.data_bus <<< 8)) % 65536
                 state := CpuState.Immediate }
        else
          let c := { c with sp := (c.sp + 1) % 256 }
          let c := c.set_addr_bus c.get_stack_addr
          some { c with stack_word := c.data_bus, stack_word_ready := true }
    | CpuState.PullWordLo =>
        let c := { c with sp := (c.sp + 1) % 256 }
        let c := c.set_addr_bus c.get_stack_addr
        some { c with state := CpuState.PullWordHi, stack_word_ready := false, stack_word := 0 }
    | CpuState.Halt => none
  next.map fun c => { c with cycles := c.cycles + 1 }

end Cpu

/-- One bus-plus-CPU tick of the flat-memory harness that drives the CPU in
the tests of src/cpu/mod.rs (`run_program`): service the CPU's pending bus
transaction against `ram`, then call `Cpu::cycle`. -/
def run_step (m : Mem) (c : Cpu) : Option (Mem × Cpu) :=
  if c.rw then
    ((c.data_in (m c.addr_bus)).cycle).map fun c2 => (m, c2)
  else
    (c.cycle).map fun c2 => (memWrite m c.addr_bus c.data_out, c2)

/-- Iterate `run_step`. -/
def run_steps : Nat → Mem → Cpu → Option (Mem × Cpu)
  | 0, m, c => some (m, c)
  | n + 1, m, c => (run_step m c).bind fun p => run_steps n p.1 p.2

/-! ## System bus and address decode (src/bus.rs) -/

def KERNAL_ROM_START : Nat := 0xe000
def BASIC_ROM_START : Nat := 0xa000
def CHAR_ROM_START : Nat := 0xd000
def KERNAL_ROM_SIZE : Nat := 8192
def BASIC_ROM_SIZE : Nat := 8192
def CHAR_ROM_SIZE : Nat := 4096
def IO_START : Nat := 0xd000
def IO_END : Nat := 0xdfff
def COLOR_RAM_START : Nat := 0xd800
def COLOR_RAM_END : Nat := 0xdbff
def CIA1_MIN_CONTROL_ADDR : Nat := 0xdc00
def CIA1_MAX_CONTROL_ADDR : Nat := 0xdcff
def CIA2_MIN_CONTROL_ADDR : Nat := 0xdd00
def CIA2_MAX_CONTROL_ADDR : Nat := 0xddff

/-- Modelled from the spec: the four banking flags `Cpu::io_enabled`,
`Cpu::krom_enabled`, `Cpu::brom_enabled` and `Cpu::crom_enabled` that
src/bus.rs calls are not defined in src/cpu/mod.rs; section 4.1.7 of the
spec gives the table they implement over the low three bits of the
dataport.  I/O is visible for bit patterns 5, 6 and 7. -/
def Cpu.io_enabled (c : Cpu) : Bool :=
  let bits := c.dataport &&& 7
  decide (bits = 5 ∨ bits = 6 ∨ bits = 7)

/-- Modelled from the spec: KERNAL ROM is visible for dataport low bits
2, 3, 6 and 7 (section 4.1.7). -/
def Cpu.krom_enabled (c : Cpu) : Bool :=
  let bits := c.dataport &&& 7
  decide (bits = 2 ∨ bits = 3 ∨ bits = 6 ∨ bits = 7)

/-- Modelled from the spec: BASIC ROM is visible for dataport low bits
3 and 7 (section 4.1.7). -/
def Cpu.brom_enabled (c : Cpu) : Bool :=
  let bits := c.dataport &&& 7
  decide (bits = 3 ∨ bits = 7)

/-- Modelled from the spec: character ROM is visible for dataport low bits
1, 2 and 3 (section 4.1.7). -/
def Cpu.crom_enabled (c : Cpu) : Bool :=
  let bits := c.dataport &&& 7
  decide (bits = 1 ∨ bits = 2 ∨ bits = 3)

/-- `enum SystemMode`. -/
inductive SystemMode where
  | Run
  | DebugRun
  | DebugStep
  deriving DecidableEq

/-- The system bus, as in `struct Bus`: memories, ROMs and the chips. -/
structure Bus where
  mode : SystemMode
  ram : Mem
  color_ram : Mem
  kernal_rom : Mem
  basic_rom : Mem
  char_rom : Mem
  cpu : Cpu
  vic : Vic
  sid : Sid
  cia_1 : Cia
  cia_2 : Cia

namespace Bus

/-- `Bus::new`: zeroed memories, freshly constructed chips. -/
def new (debug : Bool) : Bus :=
  { mode := if debug then SystemMode.DebugStep else SystemMode.Run
    ram := fun _ => 0
    color_ram := fun _ => 0
    kernal_rom := fun _ => 0
    basic_rom := fun _ => 0
    char_rom := fun _ => 0
    cpu := Cpu.new
    vic := Vic.new
    sid := Sid.new
    cia_1 := Cia.new CIA1_MIN_CONTROL_ADDR
    cia_2 := Cia.new CIA2_MIN_CONTROL_ADDR }

/-- `Bus::io_read`; `none` models the `Unimplemented I/O address` panic. -/
def io_read (b : Bus) (addr : Nat) : Option Nat :=
  if vic.MIN_CONTROL_ADDR ≤ addr ∧ addr ≤ vic.MAX_CONTROL_ADDR then
    b.vic.read_register addr
  else if sid.MIN_CONTROL_ADDR ≤ addr ∧ addr ≤ sid.MAX_CONTROL_ADDR then
    b.sid.read_register addr
  else if COLOR_RAM_START ≤ addr ∧ addr ≤ COLOR_RAM_END then
    some (b.color_ram (addr - COLOR_RAM_START))
  else if CIA1_MIN_CONTROL_ADDR ≤ addr ∧ addr ≤ CIA1_MAX_CONTROL_ADDR then
    b.cia_1.read_register addr
  else if CIA2_MIN_CONTROL_ADDR ≤ addr ∧ addr ≤ CIA2_MAX_CONTROL_ADDR then
    b.cia_2.read_register addr
  else
    none

/-- `Bus::read_byte`: CPU ports, then ROM banking, then I/O, then RAM. -/
def read_byte (b : Bus) (addr : Nat) : Option Nat :=
  if addr = 0 then some b.cpu.read_ddr
  else if addr = 1 then some b.cpu.read_dataport
  else if b.cpu.krom_enabled ∧ KERNAL_ROM_START ≤ addr ∧ addr < KERNAL_ROM_START + KERNAL_ROM_SIZE then
    some (b.kernal_rom (addr - KERNAL_ROM_START))
  else if b.cpu.brom_enabled ∧ BASIC_ROM_START ≤ addr ∧ addr < BASIC_ROM_START + BASIC_ROM_SIZE then
    some (b.basic_rom (addr - BASIC_ROM_START))
  else if b.cpu.crom_enabled ∧ CHAR_ROM_START ≤ addr ∧ addr < CHAR_ROM_START + CHAR_ROM_SIZE then
    some (b.char_rom (addr - CHAR_ROM_START))
  else if b.cpu.io_enabled ∧ IO_START ≤ addr ∧ addr ≤ IO_END then
    b.io_read addr
  else
    some (b.ram addr)

/-- `Bus::io_write`; `none` models the `Unimplemented I/O address` panic. -/
def io_write (b : Bus) (addr value : Nat) : Option Bus :=
  if vic.MIN_CONTROL_ADDR ≤ addr ∧ addr ≤ vic.MAX_CONTROL_ADDR then
    (b.vic.write_register addr value).map fun v => { b with vic := v }
  else if sid.MIN_CONTROL_ADDR ≤ addr ∧ addr ≤ sid.MAX_CONTROL_ADDR then
    (b.sid.write_register addr value).map fun s => { b with sid := s }
  else if COLOR_RAM_START ≤ addr ∧ addr ≤ COLOR_RAM_END then
    some { b with color_ram := memWrite b.color_ram (addr - COLOR_RAM_START) (value &&& 0x0f) }
  else if CIA1_MIN_CONTROL_ADDR ≤ addr ∧ addr ≤ CIA1_MAX_CONTROL_ADDR then
    (b.cia_1.write_register addr value).map fun c => { b with cia_1 := c }
  else if CIA2_MIN_CONTROL_ADDR ≤ addr ∧ addr ≤ CIA2_MAX_CONTROL_ADDR then
    (b.cia_2.write_register addr value).map fun c => { b with cia_2 := c }
  else
    none

/-- `Bus::write_byte`: the CPU ports at 0/1, then either an I/O write (when
I/O is banked in and the address is in the I/O region) or a RAM write —
the two are mutually exclusive branches. -/
def write_byte (b : Bus) (addr value : Nat) : Option Bus :=
  if addr = 0 then some { b with cpu := b.cpu.write_ddr value }
  else if addr = 1 then some { b with cpu := b.cpu.write_dataport value }
  else if (b.cpu.read_dataport &&& 7) > 4 ∧ IO_START ≤ addr ∧ addr ≤ IO_END then
    b.io_write addr value
  else
    some { b with ram := memWrite b.ram addr value }

/-- `Bus::convert_vic_ii_addr`: bank bits from the inverted CIA2 port A,
then the VIC address masked — with `0x3ff` in the source, not `0x3fff`. -/
def convert_vic_ii_addr (b : Bus) (addr : Nat) : Option Nat :=
  (b.read_byte CIA2_MIN_CONTROL_ADDR).map fun v =>
    let high_bits := (v ^^^ 0xff) &&& 0x03
    let bank := 0x4000 * high_bits
    bank + (addr &&& 0x3ff)

end Bus

/-! ## Concrete inputs used by counterexamples and witnesses -/

/-- Flat memory holding `JSR $FCE5; RTS`-style demo program of spec
section 8 scenario 5: `FCE2: 20 E5 FC`, `FCE5: 60`. -/
def jsr_demo_mem : Mem := fun a =>
  if a = 0xfce2 then 0x20
  else if a = 0xfce3 then 0xe5
  else if a = 0xfce4 then 0xfc
  else if a = 0xfce5 then 0x60
  else 0

/-- The CPU right after `Cpu::reset`. -/
def jsr_demo_cpu : Cpu := Cpu.new.reset

/-- Flat memory holding `JSR $9000` at the reset vector and `RTS` at
`$9000`, far away from the stack page. -/
def jsr_wit_mem : Mem := fun a =>
  if a = 0xfce2 then 0x20
  else if a = 0xfce3 then 0x00
  else if a = 0xfce4 then 0x90
  else if a = 0x9000 then 0x60
  else 0

/-- A CPU about to finish `(zp),Y` address computation: the pointer low
byte 0x80 is in `addr_lo`, the pointer high byte 0x12 is on the data bus,
and Y = 0x80, so `lo + Y = 0x100` crosses a page. -/
def indirect_indexed_probe : Cpu :=
  { Cpu.new with
    state := CpuState.AddressIndirectIndexedHi
    addr_lo := 0x80
    y := 0x80
    data_bus := 0x12
    rw := true }

/-- A CPU that has just decoded opcode 0x40 (RTI): current instruction RTI
in the Implied execution state. -/
def rti_probe : Cpu :=
  { Cpu.new with curr_op := Opcode.RTI, state := CpuState.Implied }

/-- A fresh bus whose CPU has been reset, so the dataport holds 0x37 and
I/O is banked in. -/
def demo_bus : Bus := { Bus.new false with cpu := Cpu.new.reset }

/-- `demo_bus` after `write_byte(0xDC00, 0x5A)`: the byte landed in CIA1
port A and nowhere else. -/
def demo_bus1 : Bus :=
  { demo_bus with cia_1 := { Cia.new CIA1_MIN_CONTROL_ADDR with port_a := 0x5a } }

/-- `demo_bus1` after `write_byte(1, 0x34)`: the dataport becomes
`0x2F &&& 0x34 = 0x24`, whose low three bits (4) bank out all ROMs and
I/O. -/
def demo_bus2 : Bus :=
  { demo_bus1 with cpu := { demo_bus1.cpu with dataport := 0x24 } }

/-! ## Claims about StatusRegister, SID and CIA -/

/-- Claim C4 counterexample: at `x = 0` the round trip
`StatusRegister::from_u8(0).to_u8()` returns `0`, not `0 ||| 0x20 = 0x20`,
so bit 5 of the externalised byte is not forced to 1. -/
theorem from_u8_to_u8_zero_not_or20 :
    (StatusRegister.new.from_u8 0).to_u8 = 0 ∧ (0 : Nat) ||| 0x20 = 0x20 ∧ (0 : Nat) ≠ 0x20 := by
  refine ⟨by decide, by decide, by decide⟩

set_option maxRecDepth 4096 in
/-- Claim C4 as amended: for every byte `x`, `from_u8(x).to_u8()` returns `x`
itself — every bit, bit 5 included, is stored and read back unchanged. -/
theorem from_u8_to_u8_roundtrip (s : StatusRegister) (x : Nat) (hx : x < 256) :
    (s.from_u8 x).to_u8 = x := by
  show (StatusRegister.new.from_u8 x).to_u8 = x
  revert hx
  revert x
  decide

/-- Witness for claim C4: the amended round-trip law evaluated at `x = 0x5a`. -/
theorem from_u8_to_u8_roundtrip_witness :
    (StatusRegister.new.from_u8 0x5a).to_u8 = 0x5a :=
  from_u8_to_u8_roundtrip StatusRegister.new 0x5a (by decide)

/-- Claim C5: at `a = 0x80`, `b = 0` the wrapped difference is `0x80`, whose bit 7
is set, yet `StatusRegister::compare` leaves the negative flag clear because
it tests `diff > 0x80` instead of `diff >= 0x80`; carry and zero follow the
claimed rule here. -/
theorem compare_negative_misses_0x80 :
    (StatusRegister.new.compare 0x80 0).negative = false ∧
    Nat.testBit ((0x80 + 256 - 0) % 256) 7 = true ∧
    (StatusRegister.new.compare 0x80 0).carry = true ∧
    (StatusRegister.new.compare 0x80 0).zero_result = false := by
  refine ⟨by decide, by decide, by decide, by decide⟩

/-- Claim C8: accessing CIA1 register space at `0xDC10` — inside the claimed
256-byte mirrored window — hits the fatal invalid-address branch of
`Cia::translate_addr` (the guard rejects every address at or beyond
`base + 0x10`), so the access panics instead of reaching register 0. -/
theorem cia1_translate_addr_0xdc10_panics :
    (Cia.new 0xdc00).translate_addr 0xdc10 = none := by
  rw [Cia.translate_addr]
  norm_num [Cia.new, cia.CONTROL_REG_COUNT]

/-- Claim C10: any SID-window address whose translated register index is not one
of 0x19, 0x1A, 0x1B, 0x1C reads as zero, whatever the current SID state
(hence whatever register writes happened before). -/
theorem sid_read_register_write_only (s : Sid) (addr reg : Nat)
    (h1 : sid.MIN_CONTROL_ADDR ≤ addr) (h2 : addr ≤ sid.MAX_CONTROL_ADDR)
    (ht : s.translate_addr addr = some reg)
    (n25 : reg ≠ 0x19) (n26 : reg ≠ 0x1a) (n27 : reg ≠ 0x1b) (n28 : reg ≠ 0x1c) :
    s.read_register addr = some 0 := by
  simp [Sid.read_register, ht, n25, n26, n27, n28]

/-- Witness for claim C10: address `0xD400` translates to register 0 and reads as 0
on a freshly constructed SID. -/
theorem sid_read_register_write_only_witness :
    Sid.new.read_register 0xd400 = some 0 := by
  refine sid_read_register_write_only Sid.new 0xd400 0 (by decide) (by decide) ?_
    (by decide) (by decide) (by decide) (by decide)
  rw [Sid.translate_addr]
  norm_num [sid.MIN_CONTROL_ADDR, sid.MAX_CONTROL_ADDR, sid.CONTROL_REG_COUNT]

/-! ## Claims about the CPU state machine -/

/-- Splitting a run of the flat-memory harness. -/
theorem run_steps_add (k n : Nat) (m : Mem) (c : Cpu) :
    run_steps (k + n) m c = (run_steps k m c).bind fun p => run_steps n p.1 p.2 := by
  induction k generalizing m c with
  | zero => simp [run_steps]
  | succ k ih =>
      have e : k + 1 + n = k + n + 1 := by omega
      rw [e]
      simp only [run_steps, Option.bind_assoc]
      refine congrArg _ ?_
      funext p
      exact ih p.1 p.2

set_option maxHeartbeats 1000000 in
/-- Symbolic execution of the six cycles of a JSR at address `P` plus the
following `ToLoad` cycle: the machine is back in `Fetch` at the target
`hi * 256 + lo`, the stack pointer has moved down by two, and the two
stack cells hold the bytes of `(P + 3) % 65536` — the program counter
value after the three instruction bytes were consumed. -/
theorem jsr_phase_full (m : Mem) (P lo hi sp0 : Nat)
    (av xv yv dp ddr cyc alo ahi db sw : Nat) (sr : StatusRegister) (op : Opcode) (aen : Bool)
    (hP : P < 65536)
    (hm0 : m P = 0x20)
    (hm1 : m ((P + 1) % 65536) = lo)
    (hm2 : m ((P + 2) % 65536) = hi) :
    run_steps 7 m
      { pc := P, a := av, x := xv, y := yv, sr := sr, sp := sp0
        dataport := dp, data_direction_reg := ddr, cycles := cyc
        curr_op := op, addr_lo := alo, addr_hi := ahi, data_bus := db
        rw := true, addr_enable := aen, addr_bus := P
        stack_word_ready := false, stack_word := sw
        state := CpuState.Fetch } =
    some (memWrite (memWrite m (sp0 + 256) (((P + 3) % 65536) >>> 8 % 256))
            ((sp0 + 255) % 256 + 256) ((P + 3) % 65536 &&& 255),
      { pc := hi * 256 + lo, a := av, x := xv, y := yv, sr := sr
        sp := ((sp0 + 255) % 256 + 255) % 256
        dataport := dp, data_direction_reg := ddr, cycles := cyc + 7
        curr_op := Opcode.JSR, addr_lo := lo, addr_hi := hi
        data_bus := (P + 3) % 65536 &&& 255
        rw := true, addr_enable := true, addr_bus := hi * 256 + lo
        stack_word_ready := false, stack_word := (P + 3) % 65536
        state := CpuState.Fetch }) := by
  have e1 : ((P + 1) % 65536 + 1) % 65536 = (P + 2) % 65536 := by omega
  have e2 : ((P + 2) % 65536 + 1) % 65536 = (P + 3) % 65536 := by omega
  simp [run_steps, run_step, Cpu.cycle, Cpu.increment_pc, Cpu.do_instr,
        Cpu.addressing_mode, Opcode.from_u8, Cpu.set_addr_bus, Cpu.set_data_bus,
        Cpu.data_in, Cpu.read_data_bus, Cpu.data_out, Cpu.get_stack_addr,
        Cpu.addr_from_hi_lo, STACK_START_ADDR, Nat.shiftLeft_eq,
        hm0, hm1, hm2, e1, e2]

set_option maxHeartbeats 1600000 in
/-- Claim C2: running `JSR target; RTS` (opcode 0x20 at `P` with target
bytes `lo`, `hi`, and opcode 0x60 at the target) for its full 14 cycles
leaves the program counter at `P + 3`, the address of the instruction
following the three-byte JSR, restores the stack pointer, and returns the
machine to instruction fetch.  The target must hold the RTS opcode and not
collide with the two stack cells used by the call. -/
theorem jsr_rts_returns (m : Mem) (P lo hi sp0 : Nat)
    (av xv yv dp ddr cyc alo ahi db sw : Nat) (sr : StatusRegister) (op : Opcode) (aen : Bool)
    (hP : P < 65536) (hlo : lo < 256) (hhi : hi < 256) (hsp : sp0 < 256)
    (hm0 : m P = 0x20)
    (hm1 : m ((P + 1) % 65536) = lo)
    (hm2 : m ((P + 2) % 65536) = hi)
    (hmT : m (hi * 256 + lo) = 0x60)
    (hT1 : hi * 256 + lo ≠ sp0 + 256)
    (hT2 : hi * 256 + lo ≠ (sp0 + 255) % 256 + 256) :
    (run_steps 14 m
      { pc := P, a := av, x := xv, y := yv, sr := sr, sp := sp0
        dataport := dp, data_direction_reg := ddr, cycles := cyc
        curr_op := op, addr_lo := alo, addr_hi := ahi, data_bus := db
        rw := true, addr_enable := aen, addr_bus := P
        stack_word_ready := false, stack_word := sw
        state := CpuState.Fetch }).map (fun p => (p.2.pc, p.2.sp, p.2.state)) =
      some ((P + 3) % 65536, sp0, CpuState.Fetch) := by
  have hsplit : (14 : Nat) = 7 + 7 := rfl
  rw [hsplit, run_steps_add,
      jsr_phase_full m P lo hi sp0 av xv yv dp ddr cyc alo ahi db sw sr op aen hP hm0 hm1 hm2]
  simp only [Option.some_bind]
  generalize hR : memWrite (memWrite m (sp0 + 256) (((P + 3) % 65536) >>> 8 % 256))
      ((sp0 + 255) % 256 + 256) ((P + 3) % 65536 &&& 255) = R
  have hne : ¬ (sp0 + 256 = (sp0 + 255) % 256 + 256) := by omega
  have hr1 : R (hi * 256 + lo) = 0x60 := by
    rw [← hR]; simp [memWrite, hT1, hT2, hmT]
  have ea2 : (sp0 + 255 + 255 + 1) % 256 = (sp0 + 255) % 256 := by omega
  have ea3 : (sp0 + 255 + 255 + 1 + 1) % 256 = sp0 := by omega
  have hr2 : R ((sp0 + 255 + 255 + 1) % 256 + 256) = (P + 3) % 65536 &&& 255 := by
    rw [← hR]; simp [memWrite, ea2]
  have hr3 : R ((sp0 + 255 + 255 + 1 + 1) % 256 + 256) = ((P + 3) % 65536) >>> 8 % 256 := by
    rw [← hR]; simp [memWrite, ea3, hne]
  have hsr : ((P + 3) % 65536) >>> 8 = (P + 3) % 65536 / 256 := by
    simpa using Nat.shiftRight_eq_div_pow ((P + 3) % 65536) 8
  have han : (P + 3) % 65536 &&& 255 = (P + 3) % 65536 % 256 := by
    simpa using Nat.and_pow_two_sub_one_eq_mod ((P + 3) % 65536) 8
  simp [run_steps, run_step, Cpu.cycle, Cpu.increment_pc, Cpu.do_instr,
        Cpu.addressing_mode, Opcode.from_u8, Cpu.set_addr_bus, Cpu.set_data_bus,
        Cpu.data_in, Cpu.read_data_bus, Cpu.data_out, Cpu.get_stack_addr,
        Cpu.addr_from_hi_lo, STACK_START_ADDR, Nat.shiftLeft_eq,
        hr1, hr2, hr3]
  omega

/-- Witness for claim C2: the spec's own scenario, `JSR $9000` at the reset
vector with `RTS` at `$9000`, from a freshly reset CPU. -/
theorem jsr_rts_returns_witness :
    (run_steps 14 jsr_wit_mem
      { pc := 0xfce2, a := 0xaa, x := 0, y := 0, sr := StatusRegister.new, sp := 0xfd
        dataport := 0x37, data_direction_reg := 0x2f, cycles := 0
        curr_op := Opcode.KIL, addr_lo := 0, addr_hi := 0, data_bus := 0
        rw := true, addr_enable := true, addr_bus := 0xfce2
        stack_word_ready := false, stack_word := 0
        state := CpuState.Fetch }).map (fun p => (p.2.pc, p.2.sp, p.2.state)) =
      some ((0xfce2 + 3) % 65536, 0xfd, CpuState.Fetch) :=
  jsr_rts_returns jsr_wit_mem 0xfce2 0x00 0x90 0xfd 0xaa 0 0 0x37 0x2f 0 0 0 0 0
    StatusRegister.new Opcode.KIL true (by decide) (by decide) (by decide) (by decide)
    (by decide) (by decide) (by decide) (by decide) (by decide) (by decide)

/-- Claim C3 counterexample: for the JSR at `P = 0xFCE2` the two bytes
pushed on the stack (at 0x01FD and 0x01FC) form the word `0xFCE5 = P + 3`,
which is not `P + 2`. -/
theorem jsr_pushes_fce5 :
    (run_steps 7 jsr_demo_mem jsr_demo_cpu).map
        (fun p => p.1 0x1fd * 256 + p.1 0x1fc) = some 0xfce5 ∧
    (0xfce5 : Nat) ≠ 0xfce2 + 2 := by
  exact ⟨by decide, by decide⟩

/-- Claim C3 as amended: the 16-bit word JSR pushes equals `(P + 3) mod
2^16`, the address of the next instruction — `do_instr` stores the program
counter after all three instruction bytes were consumed (RTS compensates by
not adding one on return). -/
theorem jsr_pushes_next_addr (m : Mem) (P lo hi sp0 : Nat)
    (av xv yv dp ddr cyc alo ahi db sw : Nat) (sr : StatusRegister) (op : Opcode) (aen : Bool)
    (hP : P < 65536) (hsp : sp0 < 256)
    (hm0 : m P = 0x20)
    (hm1 : m ((P + 1) % 65536) = lo)
    (hm2 : m ((P + 2) % 65536) = hi) :
    (run_steps 7 m
      { pc := P, a := av, x := xv, y := yv, sr := sr, sp := sp0
        dataport := dp, data_direction_reg := ddr, cycles := cyc
        curr_op := op, addr_lo := alo, addr_hi := ahi, data_bus := db
        rw := true, addr_enable := aen, addr_bus := P
        stack_word_ready := false, stack_word := sw
        state := CpuState.Fetch }).map
      (fun p => p.1 (sp0 + 256) * 256 + p.1 ((sp0 + 255) % 256 + 256)) =
    some ((P + 3) % 65536) := by
  rw [jsr_phase_full m P lo hi sp0 av xv yv dp ddr cyc alo ahi db sw sr op aen hP hm0 hm1 hm2]
  have hne : ¬ (sp0 + 256 = (sp0 + 255) % 256 + 256) := by omega
  have hsr : ((P + 3) % 65536) >>> 8 = (P + 3) % 65536 / 256 := by
    simpa using Nat.shiftRight_eq_div_pow ((P + 3) % 65536) 8
  have han : (P + 3) % 65536 &&& 255 = (P + 3) % 65536 % 256 := by
    simpa using Nat.and_pow_two_sub_one_eq_mod ((P + 3) % 65536) 8
  simp [memWrite, hne]
  omega

/-- Witness for claim C3: the amended push law evaluated on `JSR $9000`
from the reset vector. -/
theorem jsr_pushes_next_addr_witness :
    (run_steps 7 jsr_wit_mem
      { pc := 0xfce2, a := 0xaa, x := 0, y := 0, sr := StatusRegister.new, sp := 0xfd
        dataport := 0x37, data_direction_reg := 0x2f, cycles := 0
        curr_op := Opcode.KIL, addr_lo := 0, addr_hi := 0, data_bus := 0
        rw := true, addr_enable := true, addr_bus := 0xfce2
        stack_word_ready := false, stack_word := 0
        state := CpuState.Fetch }).map
      (fun p => p.1 (0xfd + 256) * 256 + p.1 ((0xfd + 255) % 256 + 256)) =
    some ((0xfce2 + 3) % 65536) :=
  jsr_pushes_next_addr jsr_wit_mem 0xfce2 0x00 0x90 0xfd 0xaa 0 0 0x37 0x2f 0 0 0 0 0
    StatusRegister.new Opcode.KIL true (by decide) (by decide) (by decide) (by decide)
    (by decide)

/-- Claim C6: with pointer low byte 0x80 and Y = 0x80 the sum `lo + Y =
0x100` crosses a page, yet the `AddressIndirectIndexedHi` step goes
straight to `Load` with no page-cross penalty cycle — the source tests the
already-updated `addr_lo` (`(lo + Y) % 256 + Y > 0xFF`) instead of
`lo + Y > 0xFF`. -/
theorem indirect_indexed_page_cross_missed :
    Option.map Cpu.state indirect_indexed_probe.cycle = some CpuState.Load ∧
    0x80 + 0x80 > 0xff := by
  exact ⟨by decide, by decide⟩

/-- Claim C7: executing RTI is always fatal — whenever the current opcode
is RTI and the machine is in the `Implied` execution state (where RTI
executes, since opcode 0x40 decodes to `Implied`), `Cpu::cycle` hits the
`panic!()` arm; nothing is restored from the stack. -/
theorem rti_panics (c : Cpu) (hop : c.curr_op = Opcode.RTI)
    (hst : c.state = CpuState.Implied) : c.cycle = none := by
  simp [Cpu.cycle, Cpu.increment_pc, Cpu.do_instr, Cpu.set_addr_bus, hst, hop]

/-- Witness for claim C7: a CPU that has just decoded opcode 0x40 panics on
the next cycle. -/
theorem rti_panics_witness : rti_probe.cycle = none :=
  rti_panics rti_probe rfl rfl

/-! ## Claims about the bus -/

set_option maxRecDepth 2048 in
/-- Writing 0x5A to CIA1 port A at 0xDC00 through the bus: the byte goes to
the chip register only. -/
theorem cia1_port_a_write_eq : demo_bus.write_byte 0xdc00 0x5a = some demo_bus1 := by
  simp [demo_bus, demo_bus1, Bus.new, Bus.write_byte, Bus.io_write,
        Cia.write_register, Cia.translate_addr, Cia.new,
        Cpu.new, Cpu.reset, Cpu.read_dataport,
        IO_START, IO_END, COLOR_RAM_START, COLOR_RAM_END,
        CIA1_MIN_CONTROL_ADDR, CIA1_MAX_CONTROL_ADDR,
        CIA2_MIN_CONTROL_ADDR, CIA2_MAX_CONTROL_ADDR, cia.CONTROL_REG_COUNT,
        vic.MIN_CONTROL_ADDR, vic.MAX_CONTROL_ADDR,
        sid.MIN_CONTROL_ADDR, sid.MAX_CONTROL_ADDR]
  decide

/-- Writing 0x34 to the dataport address 1 banks out every ROM and I/O
(low dataport bits become 4). -/
theorem dataport_write_eq : demo_bus1.write_byte 1 0x34 = some demo_bus2 := rfl

/-- With I/O banked out, reading 0xDC00 falls through to system RAM, which
still holds 0. -/
theorem read_back_ram_eq : demo_bus2.read_byte 0xdc00 = some 0 := by decide

/-- Claim C1 counterexample: write 0x5A to 0xDC00 with I/O enabled, bank
I/O out, read 0xDC00 back — the result is 0, the old RAM byte, not 0x5A:
the I/O write never reached RAM. -/
theorem io_write_skips_ram :
    ((demo_bus.write_byte 0xdc00 0x5a).bind fun b1 =>
      (b1.write_byte 1 0x34).bind fun b2 => b2.read_byte 0xdc00) = some 0 ∧
    (0 : Nat) ≠ 0x5a := by
  refine ⟨?_, by decide⟩
  rw [cia1_port_a_write_eq]
  simp only [Option.some_bind]
  rw [dataport_write_eq]
  simp only [Option.some_bind]
  exact read_back_ram_eq

/-- Claim C1 as amended: when I/O is enabled and the address lies in the
I/O region, a successful `Bus::write_byte` routes the byte only to the
peripheral (or colour RAM) — system RAM is left completely unchanged, so a
later read with I/O disabled returns the old RAM byte, not the value
written. -/
theorem write_byte_io_leaves_ram (b b2 : Bus) (addr value : Nat)
    (hio : b.cpu.read_dataport &&& 7 > 4)
    (hlo : IO_START ≤ addr) (hhi : addr ≤ IO_END)
    (hw : b.write_byte addr value = some b2) :
    b2.ram = b.ram := by
  have hs : IO_START = 0xd000 := rfl
  have h0 : addr ≠ 0 := by rw [hs] at hlo; omega
  have h1 : addr ≠ 1 := by rw [hs] at hlo; omega
  unfold Bus.write_byte at hw
  rw [if_neg h0, if_neg h1, if_pos ⟨hio, hlo, hhi⟩] at hw
  unfold Bus.io_write at hw
  repeat' split at hw
  any_goals exact Option.noConfusion hw
  any_goals obtain ⟨v, -, rfl⟩ := Option.map_eq_some'.mp hw <;> rfl
  obtain rfl := Option.some.inj hw
  rfl

/-- Witness for claim C1: the CIA1 write of the counterexample leaves RAM
untouched. -/
theorem write_byte_io_leaves_ram_witness : demo_bus1.ram = demo_bus.ram :=
  write_byte_io_leaves_ram demo_bus demo_bus1 0xdc00 0x5a (by decide) (by decide)
    (by decide) cia1_port_a_write_eq

/-- Claim C9: with CIA2 port A = 0 (bank 3) and the VIC address bus at its
reset value 0x3FFF, the bus computes 0xC040 — `Vic::read_addr_bus` masks
with 0x40 and `Bus::convert_vic_ii_addr` masks with 0x3FF — while the
claimed formula `bank * 0x4000 + (vic_addr &&& 0x3FFF)` gives 0xFFFF. -/
theorem convert_vic_ii_addr_masks_wrong :
    demo_bus.convert_vic_ii_addr demo_bus.vic.read_addr_bus = some 0xc040 ∧
    ((demo_bus.cia_2.port_a ^^^ 0xff) &&& 0x03) * 0x4000 +
      (demo_bus.vic.addr_bus &&& 0x3fff) = 0xffff ∧
    (0xc040 : Nat) ≠ 0xffff := by
  refine ⟨?_, by decide, by decide⟩
  simp [demo_bus, Bus.new, Bus.convert_vic_ii_addr, Bus.read_byte, Bus.io_read,
        Cpu.new, Cpu.reset, Cpu.read_ddr, Cpu.read_dataport, Cpu.krom_enabled,
        Cpu.brom_enabled, Cpu.crom_enabled, Cpu.io_enabled, Cia.new,
        Cia.read_register, Cia.translate_addr, Vic.new, Vic.read_addr_bus,
        KERNAL_ROM_START, KERNAL_ROM_SIZE, BASIC_ROM_START, BASIC_ROM_SIZE,
        CHAR_ROM_START, CHAR_ROM_SIZE, IO_START, IO_END,
        COLOR_RAM_START, COLOR_RAM_END, CIA1_MIN_CONTROL_ADDR, CIA1_MAX_CONTROL_ADDR,
        CIA2_MIN_CONTROL_ADDR, CIA2_MAX_CONTROL_ADDR, cia.CONTROL_REG_COUNT,
        vic.MIN_CONTROL_ADDR, vic.MAX_CONTROL_ADDR,
        sid.MIN_CONTROL_ADDR, sid.MAX_CONTROL_ADDR]
  decide

end C64
